import Mathlib

/-!
Shallow embedding of `src/packages/select/src/select.tsx` (chakra-ui Select).

Props objects are modelled as association lists of string keys to values;
JSX attribute spreading `{...a} {...b}` is list append, and the effective
value of an attribute is the LAST binding for its key (later spreads and
explicit JSX attributes override earlier ones, as in JavaScript object
spread / React `createElement`).  Rendered elements are a tree of tags,
prop lists and children.  External collaborators that live outside `src/`
(`useFormControl` from `@chakra-ui/form-control`, `useStyleConfig` from
`@chakra-ui/system`) are taken as arbitrary function parameters; the small
utilities `cx`, `split`, `omitThemingProps` and the `layoutPropNames` list
are modelled from the spec since their code is not under `src/`.
React `ref` forwarding is a host-runtime handle, not a rendered attribute,
and is not modelled.
-/

set_option autoImplicit false

namespace Chakra

mutual

/-- A JavaScript value as it appears in props: strings, booleans, numbers,
`undefined`, plain objects, a React element, or an array of elements. -/
inductive Val : Type where
  | str : String → Val
  | bool : Bool → Val
  | num : Int → Val
  | undef : Val
  | obj : List (String × Val) → Val
  | elem : Elem → Val
  | elems : List Elem → Val

/-- A rendered React element: tag, effective props (in spread order), and
children; or a text node. -/
inductive Elem : Type where
  | mk : String → List (String × Val) → List Elem → Elem
  | text : String → Elem

end

/-- A props object / attribute set, in spread order. -/
abbrev Obj : Type := List (String × Val)

def Elem.props : Elem → Obj
  | Elem.mk _ ps _ => ps
  | Elem.text _ => []

def Elem.children : Elem → List Elem
  | Elem.mk _ _ cs => cs
  | Elem.text _ => []

def Elem.tag : Elem → String
  | Elem.mk t _ _ => t
  | Elem.text _ => ""

/-- The effective value of key `k` in a props object: the LAST binding wins,
matching JavaScript object-spread semantics. -/
def lookupLast : Obj → String → Option Val
  | [], _ => none
  | (k₁, v) :: rest, k =>
      match lookupLast rest k with
      | some w => some w
      | none => if k₁ = k then some v else none

/-- Merge of two optional attribute values where the second (later) one wins
when present. -/
def override : Option Val → Option Val → Option Val
  | x, none => x
  | _, some v => some v

@[simp] theorem override_none_right (x : Option Val) : override x none = x := rfl

@[simp] theorem override_some (x : Option Val) (v : Val) :
    override x (some v) = some v := rfl

@[simp] theorem override_none_left (y : Option Val) : override none y = y := by
  cases y <;> rfl

@[simp] theorem lookupLast_nil (k : String) : lookupLast [] k = none := rfl

theorem lookupLast_cons (k₁ : String) (v : Val) (o : Obj) (k : String) :
    lookupLast ((k₁, v) :: o) k =
      override (if k₁ = k then some v else none) (lookupLast o k) := by
  cases h : lookupLast o k <;> simp [lookupLast, override, h]

@[simp] theorem lookupLast_cons_ne (k₁ : String) (v : Val) (o : Obj) (k : String)
    (h : k₁ ≠ k) : lookupLast ((k₁, v) :: o) k = lookupLast o k := by
  rw [lookupLast_cons, if_neg h, override_none_left]

/-- Looking up in a concatenation of props objects: the later object wins. -/
theorem lookupLast_append (a b : Obj) (k : String) :
    lookupLast (a ++ b) k = override (lookupLast a k) (lookupLast b k) := by
  induction a with
  | nil => simp
  | cons hd tl ih =>
      obtain ⟨k₁, v⟩ := hd
      rw [List.cons_append, lookupLast_cons, ih, lookupLast_cons]
      cases hb : lookupLast b k <;> cases ht : lookupLast tl k <;>
        simp [override]

/-- Looking up in a key-filtered props object. -/
theorem lookupLast_filter (o : Obj) (pred : String → Bool) (k : String) :
    lookupLast (o.filter (fun kv => pred kv.1)) k =
      if pred k then lookupLast o k else none := by
  induction o with
  | nil => simp
  | cons hd tl ih =>
      obtain ⟨k₁, v⟩ := hd
      by_cases hp : pred k₁ = true
      · rw [show List.filter (fun kv => pred kv.1) ((k₁, v) :: tl) =
              (k₁, v) :: List.filter (fun kv => pred kv.1) tl by
              simp [List.filter, hp]]
        rw [lookupLast_cons, ih, lookupLast_cons]
        by_cases hk : k₁ = k
        · subst hk
          simp [hp]
        · simp [hk]
      · rw [show List.filter (fun kv => pred kv.1) ((k₁, v) :: tl) =
              List.filter (fun kv => pred kv.1) tl by
              simp [List.filter, hp]]
        rw [ih, lookupLast_cons]
        by_cases hk : k₁ = k
        · subst hk
          simp [hp]
        · simp [hk]

/-! ## Modelled collaborators (code outside `src/`) -/

/-- Modelled from the spec: `cx` from `@chakra-ui/utils` (not under `src/`)
joins its truthy class-name arguments with a space; here it is applied to the
fixed base token and the optional caller `className` (typed as a string). -/
def cx (base : String) (v : Option Val) : String :=
  match v with
  | some (Val.str s) => if s = "" then base else base ++ " " ++ s
  | _ => base

/-- Modelled from the spec: the theming-only property names that
`omitThemingProps` from `@chakra-ui/system` (not under `src/`) removes —
"style-selection-only properties (e.g., variant/size/color-scheme selectors)". -/
def themingPropNames : List String :=
  ["variant", "size", "colorScheme", "styleConfig"]

/-- Remove all bindings whose key is in `ks` (JavaScript rest-destructuring
`const { a, b, ...rest } = o`). -/
def remove (o : Obj) (ks : List String) : Obj :=
  o.filter (fun kv => !decide (kv.1 ∈ ks))

/-- Modelled from the spec: `omitThemingProps` strips the theming-only
properties before the remaining props are forwarded downward. -/
def omitThemingProps (o : Obj) : Obj :=
  remove o themingPropNames

/-- Modelled from the spec: `layoutPropNames` from `@chakra-ui/system`
(not under `src/`) — "a fixed recognized set of sizing/spacing/position
property names" (the spec's examples include `width` and `margin`). -/
def layoutPropNames : List String :=
  ["width", "height", "minWidth", "maxWidth", "minHeight", "maxHeight",
   "w", "h", "display", "verticalAlign", "overflow",
   "margin", "m", "mt", "mr", "mb", "ml", "mx", "my",
   "padding", "p", "pt", "pr", "pb", "pl", "px", "py",
   "position", "top", "right", "bottom", "left", "zIndex",
   "flex", "flexBasis", "flexGrow", "flexShrink", "alignSelf",
   "justifySelf", "order", "boxSizing", "float", "clear"]

/-- Modelled from the spec: `split` from `@chakra-ui/utils` (not under
`src/`) partitions a props object into the bindings whose key is in the
given name list and all the others. -/
def split (o : Obj) (names : List String) : Obj × Obj :=
  (o.filter (fun kv => decide (kv.1 ∈ names)),
   o.filter (fun kv => !decide (kv.1 ∈ names)))

/-! ## SelectField (select.tsx lines 51-70) -/

/-- The `children` prop of a props object, as a list of elements (React
children may be a single element or an array). -/
def getChildren (props : Obj) : List Elem :=
  match lookupLast props "children" with
  | some (Val.elems l) => l
  | some (Val.elem e) => [e]
  | _ => []

/-- The `...rest` of `const { children, placeholder, className, isDisabled,
...rest } = props` in `SelectField`; it is the argument to `useFormControl`
and is spread onto the rendered select. -/
def selectFieldRest (props : Obj) : Obj :=
  remove props ["children", "placeholder", "className", "isDisabled"]

/-- The placeholder pseudo-option `<option value="">{placeholder}</option>`. -/
def placeholderOption (s : String) : Elem :=
  Elem.mk "option" [("value", Val.str "")] [Elem.text s]

/-- Children of the rendered select:
`{placeholder && <option value="">{placeholder}</option>} {children}` —
the option is rendered only when `placeholder` (a string by its type) is
truthy, i.e. non-empty. -/
def selectFieldChildren (props : Obj) : List Elem :=
  (match lookupLast props "placeholder" with
   | some (Val.str s) => if s = "" then [] else [placeholderOption s]
   | _ => []) ++ getChildren props

/-- The component `SelectField` (select.tsx lines 51-70): renders
`<chakra.select {...select} {...rest} className={cx("chakra-select",
className)} disabled={isDisabled}>` where `select = useFormControl(rest)`.
The form-control collaborator `fc` is an arbitrary parameter (its code is
outside `src/`). `ref` forwarding is not modelled. -/
def renderSelectField (fc : Obj → Obj) (props : Obj) : Elem :=
  Elem.mk "select"
    (fc (selectFieldRest props) ++ selectFieldRest props ++
      [("className", Val.str (cx "chakra-select" (lookupLast props "className"))),
       ("disabled", (lookupLast props "isDisabled").getD Val.undef)])
    (selectFieldChildren props)

/-- JavaScript truthiness, as React uses it to decide whether a boolean DOM
attribute is rendered. -/
def truthy : Val → Bool
  | Val.str s => !s.isEmpty
  | Val.bool b => b
  | Val.num n => n != 0
  | Val.undef => false
  | Val.obj _ => true
  | Val.elem _ => true
  | Val.elems _ => true

/-- Whether the rendered DOM element carries boolean attribute `k`: present
iff the effective prop value is truthy (React omits `disabled={false}` and
`disabled={undefined}`). -/
def hasAttr (e : Elem) (k : String) : Bool :=
  match lookupLast e.props k with
  | some v => truthy v
  | none => false

/-! ## SelectIcon / DefaultIcon (select.tsx lines 146-199) -/

/-- The component `DefaultIcon` (select.tsx lines 146-153). -/
def DefaultIcon (props : Obj) : Elem :=
  Elem.mk "svg" ([("viewBox", Val.str "0 0 24 24")] ++ props)
    [Elem.mk "path"
      [("fill", Val.str "currentColor"),
       ("d", Val.str "M16.59 8.59L12 13.17 7.41 8.59 6 10l6 6 6-6z")] []]

/-- The `baseStyle` of the `IconWrapper` chakra factory
(select.tsx lines 155-169). -/
def iconWrapperBaseStyle : Obj :=
  [("position", Val.str "absolute"), ("display", Val.str "inline-flex"),
   ("width", Val.str "1.5rem"), ("height", Val.str "100%"),
   ("alignItems", Val.str "center"), ("justifyContent", Val.str "center"),
   ("right", Val.str "0.5rem"), ("pointerEvents", Val.str "none"),
   ("zIndex", Val.num 2), ("top", Val.str "50%"),
   ("transform", Val.str "translateY(-50%)")]

/-- The forced inline style of the cloned icon (select.tsx lines 185-189). -/
def iconStyleObj : Obj :=
  [("width", Val.str "1em"), ("height", Val.str "1em"),
   ("color", Val.str "currentColor")]

/-- The override props `SelectIcon` passes to `React.cloneElement`
(select.tsx lines 179-190). -/
def iconOverrides : Obj :=
  [("role", Val.str "presentation"),
   ("className", Val.str "chakra-select__icon"),
   ("focusable", Val.bool false),
   ("aria-hidden", Val.bool true),
   ("style", Val.obj iconStyleObj)]

/-- The call `React.cloneElement(e, overrides)`: a new element with the original
props merged with (and overridden by) `overrides`, keeping the original
children. Cloning a non-element (a text node) raises at runtime: `none`. -/
def cloneElement : Elem → Obj → Option Elem
  | Elem.mk t ps cs, overrides => some (Elem.mk t (ps ++ overrides) cs)
  | Elem.text _, _ => none

/-- The destructuring `const \x7b children = <DefaultIcon />, ...rest \x7d = props` in `SelectIcon`:
the icon child, defaulting to `DefaultIcon` when absent or `undefined`; a
non-element value cannot be cloned (`none`). -/
def selectIconChild (props : Obj) : Option Elem :=
  match lookupLast props "children" with
  | some (Val.elem e) => some e
  | some Val.undef => some (DefaultIcon [])
  | none => some (DefaultIcon [])
  | some _ => none

/-- Whether the `children` prop of a `SelectIcon` props object is a valid
icon input (an element, or absent/undefined so the default is used). -/
def iconChildOk (props : Obj) : Bool :=
  match lookupLast props "children" with
  | some (Val.elem (Elem.mk _ _ _)) => true
  | some Val.undef => true
  | none => true
  | _ => false

/-- The component `SelectIcon` (select.tsx lines 176-199): clones the icon child with the
forced overrides and renders `<IconWrapper {...rest}
className="chakra-select__icon-wrapper" children={clone} />`. The
`IconWrapper` base style has lowest precedence, like chakra base styles.
`none` models the runtime error `React.cloneElement` raises on a
non-element child. -/
def renderSelectIcon (props : Obj) : Option Elem :=
  match selectIconChild props with
  | none => none
  | some c =>
    match cloneElement c iconOverrides with
    | none => none
    | some clone =>
      some (Elem.mk "div"
        ([("__baseStyle", Val.obj iconWrapperBaseStyle)] ++
          remove props ["children"] ++
          [("className", Val.str "chakra-select__icon-wrapper")])
        [clone])

/-! ## Select (select.tsx lines 100-140) -/

/-- The `...rest` of `const { rootProps, placeholder, icon, color, ...rest }
= omitThemingProps(props)` in `Select`. -/
def selectRest (props : Obj) : Obj :=
  remove (omitThemingProps props) ["rootProps", "placeholder", "icon", "color"]

/-- The layout half of `split(rest, layoutPropNames)`, spread onto the
wrapper div. -/
def selectLayoutProps (props : Obj) : Obj :=
  (split (selectRest props) layoutPropNames).1

/-- The non-layout half of `split(rest, layoutPropNames)`, spread onto
`SelectField`. -/
def selectOtherProps (props : Obj) : Obj :=
  (split (selectRest props) layoutPropNames).2

/-- The destructured `rootProps` prop, as the object spread `{...rootProps}`
sees it (spreading `undefined` or a non-object contributes nothing). -/
def getRootProps (props : Obj) : Obj :=
  match lookupLast (omitThemingProps props) "rootProps" with
  | some (Val.obj o) => o
  | _ => []

/-- The fixed leading props of the wrapper div:
`className="chakra-select__wrapper"` and
`__css={{ width: "100%", position: "relative", color }}`
(select.tsx lines 113-119). -/
def wrapperBaseProps (props : Obj) : Obj :=
  [("className", Val.str "chakra-select__wrapper"),
   ("__css", Val.obj
     [("width", Val.str "100%"), ("position", Val.str "relative"),
      ("color", (lookupLast (omitThemingProps props) "color").getD Val.undef)])]

/-- The full props of the wrapper div, in spread order:
fixed base, then `{...layoutProps}`, then `{...rootProps}`
(select.tsx lines 113-122). -/
def selectWrapperProps (props : Obj) : Obj :=
  wrapperBaseProps props ++ selectLayoutProps props ++ getRootProps props

/-- The props object `Select` passes to `SelectField`:
`placeholder={placeholder} {...otherProps} __css={styles.field}` with
`children = props.children` set last by JSX (select.tsx lines 123-130);
`sc` is the `useStyleConfig("Select", ·)` collaborator. -/
def selectFieldInput (sc : Obj → Obj) (props : Obj) : Obj :=
  [("placeholder",
     (lookupLast (omitThemingProps props) "placeholder").getD Val.undef)] ++
  selectOtherProps props ++
  [("__css", (lookupLast (sc props) "field").getD Val.undef),
   ("children", Val.elems (getChildren props))]

/-- The props object `Select` passes to `SelectIcon`:
`data-disabled={props.isDisabled} children={icon} color={color}
__css={styles.icon}` (select.tsx lines 132-137). -/
def selectIconInput (sc : Obj → Obj) (props : Obj) : Obj :=
  [("data-disabled", (lookupLast props "isDisabled").getD Val.undef),
   ("children", (lookupLast (omitThemingProps props) "icon").getD Val.undef),
   ("color", (lookupLast (omitThemingProps props) "color").getD Val.undef),
   ("__css", (lookupLast (sc props) "icon").getD Val.undef)]

/-- Whether the `icon` prop of `Select` is a valid icon input: an element,
or absent/undefined (the default glyph is used). A non-element icon makes
`React.cloneElement` raise inside `SelectIcon`. -/
def iconPropOk (props : Obj) : Bool :=
  match lookupLast (omitThemingProps props) "icon" with
  | some (Val.elem (Elem.mk _ _ _)) => true
  | some Val.undef => true
  | none => true
  | _ => false

/-- The component `Select` (select.tsx lines 100-140): a wrapper div holding the field and
the icon. `sc` is `useStyleConfig("Select", ·)` and `fc` is
`useFormControl`, both external collaborators taken as parameters. The
render fails (`none`) exactly when `SelectIcon` raises on an invalid icon
child. -/
def renderSelect (sc fc : Obj → Obj) (props : Obj) : Option Elem :=
  match renderSelectIcon (selectIconInput sc props) with
  | none => none
  | some iconElem =>
    some (Elem.mk "div" (selectWrapperProps props)
      [renderSelectField fc (selectFieldInput sc props), iconElem])

/-! ## General lookup lemmas for the derived prop objects -/

theorem lookupLast_single_ne (a : String) (x : Val) (k : String) (ha : a ≠ k) :
    lookupLast [(a, x)] k = none := by
  rw [lookupLast_cons_ne _ _ _ _ ha, lookupLast_nil]

theorem lookupLast_pair_ne (a b : String) (x y : Val) (k : String)
    (ha : a ≠ k) (hb : b ≠ k) : lookupLast [(a, x), (b, y)] k = none := by
  rw [lookupLast_cons_ne _ _ _ _ ha, lookupLast_cons_ne _ _ _ _ hb, lookupLast_nil]

theorem lookupLast_remove (o : Obj) (ks : List String) (k : String) :
    lookupLast (remove o ks) k = if k ∈ ks then none else lookupLast o k := by
  induction o with
  | nil => simp [remove]
  | cons hd tl ih =>
      obtain ⟨k₁, v⟩ := hd
      by_cases hm : k₁ ∈ ks
      · have hr : remove ((k₁, v) :: tl) ks = remove tl ks := by
          simp [remove, List.filter_cons, hm]
        rw [hr, ih]
        by_cases hk : k ∈ ks
        · simp [hk]
        · have hne : k₁ ≠ k := fun he => hk (he ▸ hm)
          simp [hk, lookupLast_cons_ne _ _ _ _ hne]
      · have hr : remove ((k₁, v) :: tl) ks = (k₁, v) :: remove tl ks := by
          simp [remove, List.filter_cons, hm]
        rw [hr, lookupLast_cons, ih, lookupLast_cons]
        by_cases hk : k ∈ ks
        · have hne : k₁ ≠ k := fun he => hm (he ▸ hk)
          simp [hk, hne]
        · simp [hk]

theorem splitSnd_eq_remove (o : Obj) (names : List String) :
    (split o names).2 = remove o names := rfl

theorem lookupLast_splitFst (o : Obj) (names : List String) (k : String) :
    lookupLast ((split o names).1) k =
      if k ∈ names then lookupLast o k else none := by
  induction o with
  | nil => simp [split]
  | cons hd tl ih =>
      obtain ⟨k₁, v⟩ := hd
      by_cases hm : k₁ ∈ names
      · have hr : (split ((k₁, v) :: tl) names).1 = (k₁, v) :: (split tl names).1 := by
          simp [split, List.filter_cons, hm]
        rw [hr, lookupLast_cons, ih, lookupLast_cons]
        by_cases hk : k₁ = k
        · subst hk
          simp [hm]
        · simp [hk]
      · have hr : (split ((k₁, v) :: tl) names).1 = (split tl names).1 := by
          simp [split, List.filter_cons, hm]
        rw [hr, ih]
        by_cases hk : k ∈ names
        · have hne : k₁ ≠ k := fun he => hm (he ▸ hk)
          simp [hk, lookupLast_cons_ne _ _ _ _ hne]
        · simp [hk]

/-- The effective value of any key other than `className` and `disabled`
(which `SelectField` always writes itself, last) in the rendered select:
the explicit `rest` binding when there is one, else the form-control one. -/
theorem lookupLast_selectField (fc : Obj → Obj) (props : Obj) (k : String)
    (h1 : k ≠ "className") (h2 : k ≠ "disabled") :
    lookupLast (renderSelectField fc props).props k =
      override (lookupLast (fc (selectFieldRest props)) k)
        (lookupLast (selectFieldRest props) k) := by
  unfold renderSelectField
  simp only [Elem.props]
  rw [lookupLast_append, lookupLast_pair_ne _ _ _ _ _ (Ne.symm h1) (Ne.symm h2),
    override_none_right, lookupLast_append]

/-! ## Demo inputs shared by the witnesses -/

/-- A concrete style-config collaborator. -/
def demoSc : Obj → Obj := fun _ =>
  [("field", Val.obj [("paddingLeft", Val.str "1rem")]), ("icon", Val.obj [])]

/-- A concrete form-control collaborator that echoes its input and adds
accessibility attributes, one of them conflicting with an explicit prop. -/
def demoFc : Obj → Obj := fun o =>
  o ++ [("aria-invalid", Val.bool false), ("id", Val.str "field-1")]

/-- A concrete `Select` props object. -/
def demoProps : Obj :=
  [("isDisabled", Val.bool true), ("margin", Val.str "4"),
   ("rootProps", Val.obj [("margin", Val.str "0")]),
   ("placeholder", Val.str "Choose"), ("id", Val.str "my-select"),
   ("iconSize", Val.str "sm"),
   ("children", Val.elems [Elem.mk "option" [("value", Val.str "a")] [Elem.text "A"]])]

/-- A concrete `SelectIcon` props object whose icon child conflicts with the
forced overrides. -/
def demoIconProps : Obj :=
  [("children",
    Val.elem (Elem.mk "svg" [("role", Val.str "img"), ("focusable", Val.bool true)] []))]

/-! ## C1 -/

/-- C1: the rendered native select carries the `disabled` attribute iff
`isDisabled === true`, for `isDisabled ∈ {true, false, undefined}` and for
EVERY attribute set the form-control collaborator returns, including one
holding a disabled-like attribute. -/
theorem selectField_disabled_iff (fc : Obj → Obj) (props : Obj)
    (h : lookupLast props "isDisabled" = some (Val.bool true) ∨
         lookupLast props "isDisabled" = some (Val.bool false) ∨
         lookupLast props "isDisabled" = some Val.undef ∨
         lookupLast props "isDisabled" = none) :
    hasAttr (renderSelectField fc props) "disabled" = true ↔
      lookupLast props "isDisabled" = some (Val.bool true) := by
  have hd : lookupLast (renderSelectField fc props).props "disabled"
      = some ((lookupLast props "isDisabled").getD Val.undef) := by
    unfold renderSelectField
    simp only [Elem.props]
    rw [lookupLast_append]
    rfl
  unfold hasAttr
  rw [hd]
  rcases h with h | h | h | h <;> rw [h] <;> simp [truthy]

/-- Witness for C1: `isDisabled = true` with a form-control set that itself
carries `disabled: false` — the attribute is still present. -/
theorem selectField_disabled_iff_witness :
    hasAttr (renderSelectField (fun _ => [("disabled", Val.bool false)])
      [("isDisabled", Val.bool true)]) "disabled" = true :=
  (selectField_disabled_iff (fun _ => [("disabled", Val.bool false)])
    [("isDisabled", Val.bool true)] (Or.inl rfl)).mpr rfl

/-! ## C2 -/

/-- C2: a non-empty `placeholder` string yields exactly one empty-value
option labelled with the placeholder, prepended before all supplied
children; an empty or undefined placeholder yields none. -/
theorem selectField_placeholder_prepend (fc : Obj → Obj) (props : Obj) :
    (∀ s : String, lookupLast props "placeholder" = some (Val.str s) → s ≠ "" →
      (renderSelectField fc props).children =
        placeholderOption s :: getChildren props) ∧
    (lookupLast props "placeholder" = some (Val.str "") ∨
     lookupLast props "placeholder" = some Val.undef ∨
     lookupLast props "placeholder" = none →
      (renderSelectField fc props).children = getChildren props) := by
  constructor
  · intro s hs hne
    show selectFieldChildren props = _
    unfold selectFieldChildren
    rw [hs]
    simp [hne]
  · intro h
    show selectFieldChildren props = _
    unfold selectFieldChildren
    rcases h with h | h | h <;> rw [h] <;> simp

/-- Witness for C2: placeholder "Choose" before one supplied option. -/
theorem selectField_placeholder_prepend_witness :
    (renderSelectField (fun _ => [])
      [("placeholder", Val.str "Choose"),
       ("children", Val.elems [Elem.mk "option" [("value", Val.str "a")] [Elem.text "A"]])]).children
    = placeholderOption "Choose" ::
        [Elem.mk "option" [("value", Val.str "a")] [Elem.text "A"]] :=
  (selectField_placeholder_prepend (fun _ => [])
    [("placeholder", Val.str "Choose"),
     ("children", Val.elems [Elem.mk "option" [("value", Val.str "a")] [Elem.text "A"]])]).1
    "Choose" rfl (by decide)

/-! ## C3 -/

/-- C3 as stated is FALSE: it claims that on every conflict on an attribute
other than `disabled`, the form-control-derived value takes precedence in
the rendered select. In the source the spreads are `{...select} {...rest}`,
so the explicitly passed props come later and win. Concrete refutation:
form control returns `id: "form-id"`, the caller passes `id: "my-id"`, and
the rendered select has `id = "my-id"`. -/
theorem selectField_fc_precedence_cex :
    ¬ (∀ (fc : Obj → Obj) (props : Obj) (k : String),
        k ≠ "disabled" →
        (lookupLast (selectFieldRest props) k).isSome = true →
        lookupLast (fc (selectFieldRest props)) k ≠
          lookupLast (selectFieldRest props) k →
        lookupLast (renderSelectField fc props).props k =
          lookupLast (fc (selectFieldRest props)) k) := by
  intro h
  have hne : lookupLast ((fun (_ : Obj) => [("id", Val.str "form-id")])
        (selectFieldRest [("id", Val.str "my-id")])) "id" ≠
      lookupLast (selectFieldRest [("id", Val.str "my-id")]) "id" := by
    intro he
    have h1 : some (Val.str "form-id") = some (Val.str "my-id") := he
    injection h1 with h2
    injection h2 with h3
    exact absurd h3 (by decide)
  have hx := h (fun _ => [("id", Val.str "form-id")]) [("id", Val.str "my-id")]
      "id" (by decide) rfl hne
  have h1 : some (Val.str "my-id") = some (Val.str "form-id") := hx
  injection h1 with h2
  injection h2 with h3
  exact absurd h3 (by decide)

/-- C3 amended: for every attribute other than `className` and `disabled`
(which `SelectField` always writes itself), an explicitly passed property
takes precedence over the form-control-derived attribute on conflict; the
form-control attribute takes effect only where no explicit property is
passed (last-write-wins by merge order). -/
theorem selectField_explicit_precedence (fc : Obj → Obj) (props : Obj)
    (k : String) (h1 : k ≠ "className") (h2 : k ≠ "disabled") :
    lookupLast (renderSelectField fc props).props k =
      override (lookupLast (fc (selectFieldRest props)) k)
        (lookupLast (selectFieldRest props) k) :=
  lookupLast_selectField fc props k h1 h2

/-- Witness for amended C3: the explicit `id` wins over the form-control
`id`. -/
theorem selectField_explicit_precedence_witness :
    lookupLast (renderSelectField (fun _ => [("id", Val.str "form-id")])
      [("id", Val.str "my-id")]).props "id" = some (Val.str "my-id") :=
  (selectField_explicit_precedence (fun _ => [("id", Val.str "form-id")])
    [("id", Val.str "my-id")] "id" (by decide) (by decide)).trans rfl

/-! ## C7 -/

/-- C7: the rendered class attribute is exactly the fixed token
`chakra-select` joined with the caller's `className` — so it contains both
tokens when a non-empty class is supplied, and still contains
`chakra-select` when none is. -/
theorem selectField_className_composition (fc : Obj → Obj) (props : Obj) :
    lookupLast (renderSelectField fc props).props "className" =
      some (Val.str (cx "chakra-select" (lookupLast props "className"))) ∧
    (∀ c : String, lookupLast props "className" = some (Val.str c) → c ≠ "" →
      cx "chakra-select" (lookupLast props "className") =
        "chakra-select" ++ " " ++ c) ∧
    (lookupLast props "className" = none ∨
     lookupLast props "className" = some Val.undef →
      cx "chakra-select" (lookupLast props "className") = "chakra-select") := by
  refine ⟨?_, ?_, ?_⟩
  · unfold renderSelectField
    simp only [Elem.props]
    rw [lookupLast_append]
    rfl
  · intro c hc hne
    rw [hc]
    unfold cx
    simp [hne]
  · intro h
    rcases h with h | h <;> rw [h] <;> rfl

/-- Witness for C7: `className="custom"` renders as
`"chakra-select custom"`. -/
theorem selectField_className_composition_witness :
    lookupLast (renderSelectField demoFc [("className", Val.str "custom")]).props
      "className" = some (Val.str ("chakra-select" ++ " " ++ "custom")) := by
  have h := selectField_className_composition demoFc [("className", Val.str "custom")]
  rw [h.1, h.2.1 "custom" rfl (by decide)]

/-! ## SelectIcon helper lemmas -/

/-- Lookups of the five forced keys in cloned-icon props: the override
appended last always wins, whatever the original props `ps` said. -/
theorem cloneProps_lookup (ps : Obj) :
    lookupLast (ps ++ iconOverrides) "role" = some (Val.str "presentation") ∧
    lookupLast (ps ++ iconOverrides) "aria-hidden" = some (Val.bool true) ∧
    lookupLast (ps ++ iconOverrides) "focusable" = some (Val.bool false) ∧
    lookupLast (ps ++ iconOverrides) "className" =
      some (Val.str "chakra-select__icon") ∧
    lookupLast (ps ++ iconOverrides) "style" = some (Val.obj iconStyleObj) := by
  refine ⟨?_, ?_, ?_, ?_, ?_⟩ <;> rw [lookupLast_append] <;> rfl

/-- A valid icon child resolves to some element. -/
theorem selectIconChild_ok (props : Obj) (h : iconChildOk props = true) :
    ∃ t ps cs, selectIconChild props = some (Elem.mk t ps cs) := by
  unfold iconChildOk at h
  unfold selectIconChild
  cases hch : lookupLast props "children" with
  | none => exact ⟨"svg", _, _, rfl⟩
  | some v =>
      rw [hch] at h
      cases v with
      | elem e =>
          cases e with
          | mk t ps cs => exact ⟨t, ps, cs, rfl⟩
          | text s => simp at h
      | undef => exact ⟨"svg", _, _, rfl⟩
      | str s => simp at h
      | bool b => simp at h
      | num n => simp at h
      | obj o => simp at h
      | elems l => simp at h

/-- On a valid icon child, `SelectIcon` renders the wrapper div holding
exactly the clone of the child with the forced overrides appended. -/
theorem renderSelectIcon_valid (props : Obj) (h : iconChildOk props = true) :
    ∃ t ps cs, renderSelectIcon props =
      some (Elem.mk "div"
        ([("__baseStyle", Val.obj iconWrapperBaseStyle)] ++
          remove props ["children"] ++
          [("className", Val.str "chakra-select__icon-wrapper")])
        [Elem.mk t (ps ++ iconOverrides) cs]) := by
  obtain ⟨t, ps, cs, hc⟩ := selectIconChild_ok props h
  refine ⟨t, ps, cs, ?_⟩
  simp only [renderSelectIcon, hc, cloneElement]

/-! ## C4 -/

/-- C4: for every icon input (a caller-supplied element, or none so the
default glyph is used), the single rendered icon child carries
`role="presentation"`, `aria-hidden=true`, `focusable=false`, class
`chakra-select__icon`, and inline style `width 1em, height 1em, color
currentColor`, overriding any conflicting values the caller's element
specified. -/
theorem selectIcon_forced_attrs (props : Obj) (h : iconChildOk props = true) :
    (renderSelectIcon props).isSome = true ∧
    ∀ w, renderSelectIcon props = some w →
      w.children.length = 1 ∧
      ∀ c, c ∈ w.children →
        lookupLast c.props "role" = some (Val.str "presentation") ∧
        lookupLast c.props "aria-hidden" = some (Val.bool true) ∧
        lookupLast c.props "focusable" = some (Val.bool false) ∧
        lookupLast c.props "className" = some (Val.str "chakra-select__icon") ∧
        lookupLast c.props "style" = some (Val.obj iconStyleObj) := by
  obtain ⟨t, ps, cs, hri⟩ := renderSelectIcon_valid props h
  constructor
  · rw [hri]
    rfl
  · intro w hw
    rw [hri] at hw
    obtain rfl := Option.some.inj hw
    refine ⟨rfl, ?_⟩
    intro c hc
    simp only [Elem.children, List.mem_singleton] at hc
    subst hc
    exact cloneProps_lookup ps

/-- Witness for C4: a caller icon that declares `role="img"` and
`focusable=true` still renders with the forced presentation attributes. -/
theorem selectIcon_forced_attrs_witness :
    lookupLast (Elem.mk "svg"
      ([("role", Val.str "img"), ("focusable", Val.bool true)] ++ iconOverrides)
      []).props "role" = some (Val.str "presentation") :=
  (((selectIcon_forced_attrs demoIconProps rfl).2 _ rfl).2 _
    (List.Mem.head _)).1

/-! ## Select helper lemmas -/

/-- For keys other than the three `SelectField` props `Select` writes
itself, the field input is exactly the non-layout half of the split. -/
theorem lookupLast_selectFieldInput (sc : Obj → Obj) (props : Obj) (k : String)
    (h1 : k ≠ "placeholder") (h2 : k ≠ "__css") (h3 : k ≠ "children") :
    lookupLast (selectFieldInput sc props) k =
      lookupLast (selectOtherProps props) k := by
  unfold selectFieldInput
  rw [lookupLast_append, lookupLast_append,
    lookupLast_pair_ne _ _ _ _ _ (Ne.symm h2) (Ne.symm h3), override_none_right,
    lookupLast_single_ne _ _ _ (Ne.symm h1), override_none_left]

/-- For keys other than the two fixed wrapper attributes, the wrapper props
resolve to the layout half overridden by `rootProps`. -/
theorem lookupLast_selectWrapperProps (props : Obj) (k : String)
    (h1 : k ≠ "className") (h2 : k ≠ "__css") :
    lookupLast (selectWrapperProps props) k =
      override (lookupLast (selectLayoutProps props) k)
        (lookupLast (getRootProps props) k) := by
  unfold selectWrapperProps wrapperBaseProps
  rw [lookupLast_append, lookupLast_append,
    lookupLast_pair_ne _ _ _ _ _ (Ne.symm h1) (Ne.symm h2), override_none_left]

/-! ## C5 -/

/-- C5: after the theming props and the named props are removed, each
remaining prop whose name is in the fixed layout list goes into the layout
half (surfacing on the wrapper whenever `rootProps` does not shadow it) and
never into the field input; each remaining prop whose name is not in the
list goes into the field input and never onto the wrapper (whose value for
such a key comes from `rootProps` alone). The keys `Select` writes itself
on those elements are excluded. -/
theorem select_layout_partition (sc : Obj → Obj) (props : Obj) (k : String)
    (hk : ¬ k ∈ (["placeholder", "__css", "children", "className"] : List String)) :
    (k ∈ layoutPropNames →
      lookupLast (selectLayoutProps props) k = lookupLast (selectRest props) k ∧
      lookupLast (selectFieldInput sc props) k = none ∧
      (lookupLast (getRootProps props) k = none →
        lookupLast (selectWrapperProps props) k =
          lookupLast (selectRest props) k)) ∧
    (¬ k ∈ layoutPropNames →
      lookupLast (selectFieldInput sc props) k =
        lookupLast (selectRest props) k ∧
      lookupLast (selectLayoutProps props) k = none ∧
      lookupLast (selectWrapperProps props) k =
        lookupLast (getRootProps props) k) := by
  simp only [List.mem_cons, List.not_mem_nil, or_false, not_or] at hk
  obtain ⟨h1, h2, h3, h4⟩ := hk
  constructor
  · intro hl
    refine ⟨?_, ?_, ?_⟩
    · unfold selectLayoutProps
      rw [lookupLast_splitFst, if_pos hl]
    · rw [lookupLast_selectFieldInput sc props k h1 h2 h3]
      unfold selectOtherProps
      rw [splitSnd_eq_remove, lookupLast_remove, if_pos hl]
    · intro hroot
      rw [lookupLast_selectWrapperProps props k h4 h2, hroot, override_none_right]
      unfold selectLayoutProps
      rw [lookupLast_splitFst, if_pos hl]
  · intro hnl
    refine ⟨?_, ?_, ?_⟩
    · rw [lookupLast_selectFieldInput sc props k h1 h2 h3]
      unfold selectOtherProps
      rw [splitSnd_eq_remove, lookupLast_remove, if_neg hnl]
    · unfold selectLayoutProps
      rw [lookupLast_splitFst, if_neg hnl]
    · rw [lookupLast_selectWrapperProps props k h4 h2]
      unfold selectLayoutProps
      rw [lookupLast_splitFst, if_neg hnl, override_none_left]

/-- Witness for C5: the layout prop `margin` is absent from the field input
and the non-layout prop `id` is absent from the layout half for the demo
props. -/
theorem select_layout_partition_witness :
    lookupLast (selectFieldInput demoSc demoProps) "margin" = none ∧
    lookupLast (selectLayoutProps demoProps) "id" = none :=
  ⟨((select_layout_partition demoSc demoProps "margin" (by decide)).1
      (by decide)).2.1,
   ((select_layout_partition demoSc demoProps "id" (by decide)).2
      (by decide)).2.1⟩

/-! ## C6 -/

/-- C6: the wrapper div's props are exactly the fixed base (class token and
`__css` base styles carrying the caller's color) followed by the layout
half and by `rootProps`; any key present in `rootProps` wins on the
wrapper, and when `rootProps` does not shadow `__css` the base styles
`width 100%, position relative, color` surface. -/
theorem select_wrapper_merge (sc fc : Obj → Obj) (props : Obj) (k : String) :
    (∀ e, renderSelect sc fc props = some e →
      e.props = selectWrapperProps props) ∧
    selectWrapperProps props =
      wrapperBaseProps props ++ selectLayoutProps props ++ getRootProps props ∧
    ((lookupLast (getRootProps props) k).isSome = true →
      lookupLast (selectWrapperProps props) k =
        lookupLast (getRootProps props) k) ∧
    (lookupLast (getRootProps props) "__css" = none →
      lookupLast (selectWrapperProps props) "__css" =
        some (Val.obj [("width", Val.str "100%"), ("position", Val.str "relative"),
          ("color", (lookupLast (omitThemingProps props) "color").getD Val.undef)])) := by
  refine ⟨?_, rfl, ?_, ?_⟩
  · intro e he
    unfold renderSelect at he
    cases hri : renderSelectIcon (selectIconInput sc props) with
    | none =>
        rw [hri] at he
        exact Option.noConfusion he
    | some w =>
        rw [hri] at he
        obtain rfl := (Option.some.inj he)
        rfl
  · intro hs
    unfold selectWrapperProps
    rw [lookupLast_append]
    cases hr : lookupLast (getRootProps props) k with
    | none => rw [hr] at hs; exact absurd hs (by simp)
    | some v => rfl
  · intro hroot
    unfold selectWrapperProps
    rw [lookupLast_append, lookupLast_append, hroot, override_none_right]
    rw [show lookupLast (selectLayoutProps props) "__css" = none from by
      unfold selectLayoutProps
      rw [lookupLast_splitFst, if_neg (by decide)]]
    rw [override_none_right]
    rfl

/-- Witness for C6: in the demo props `rootProps` carries `margin: "0"`,
conflicting with the layout prop `margin: "4"`, and wins on the wrapper. -/
theorem select_wrapper_merge_witness :
    lookupLast (selectWrapperProps demoProps) "margin" = some (Val.str "0") :=
  ((select_wrapper_merge demoSc demoFc demoProps "margin").2.2.1 rfl).trans rfl

/-! ## C8 -/

/-- C8: the three renderers are deterministic pure functions — equal props
and equal ambient theme and form-control collaborators produce equal
subtrees; the embedding gives them no state besides these inputs. -/
theorem select_render_pure (sc₁ sc₂ fc₁ fc₂ : Obj → Obj) (p₁ p₂ : Obj)
    (hsc : sc₁ = sc₂) (hfc : fc₁ = fc₂) (hp : p₁ = p₂) :
    renderSelect sc₁ fc₁ p₁ = renderSelect sc₂ fc₂ p₂ ∧
    renderSelectField fc₁ p₁ = renderSelectField fc₂ p₂ ∧
    renderSelectIcon p₁ = renderSelectIcon p₂ := by
  subst hsc
  subst hfc
  subst hp
  exact ⟨rfl, rfl, rfl⟩

/-- Witness for C8 at the demo inputs. -/
theorem select_render_pure_witness :
    renderSelect demoSc demoFc demoProps = renderSelect demoSc demoFc demoProps ∧
    renderSelectField demoFc demoProps = renderSelectField demoFc demoProps ∧
    renderSelectIcon demoProps = renderSelectIcon demoProps :=
  select_render_pure demoSc demoSc demoFc demoFc demoProps demoProps rfl rfl rfl

/-! ## C9 -/

/-- C9: `Select` never destructures `iconSize` and `iconColor`, so they stay
in the remaining props, land in the non-layout half forwarded to the field
input, and the props handed to `SelectIcon` contain neither. -/
theorem select_icon_size_color_forwarding (sc : Obj → Obj) (props : Obj) :
    lookupLast (selectFieldInput sc props) "iconSize" =
      lookupLast props "iconSize" ∧
    lookupLast (selectFieldInput sc props) "iconColor" =
      lookupLast props "iconColor" ∧
    lookupLast (selectIconInput sc props) "iconSize" = none ∧
    lookupLast (selectIconInput sc props) "iconColor" = none := by
  refine ⟨?_, ?_, rfl, rfl⟩
  · rw [lookupLast_selectFieldInput sc props _ (by decide) (by decide) (by decide)]
    unfold selectOtherProps
    rw [splitSnd_eq_remove, lookupLast_remove, if_neg (by decide)]
    unfold selectRest
    rw [lookupLast_remove, if_neg (by decide)]
    unfold omitThemingProps
    rw [lookupLast_remove, if_neg (by decide)]
  · rw [lookupLast_selectFieldInput sc props _ (by decide) (by decide) (by decide)]
    unfold selectOtherProps
    rw [splitSnd_eq_remove, lookupLast_remove, if_neg (by decide)]
    unfold selectRest
    rw [lookupLast_remove, if_neg (by decide)]
    unfold omitThemingProps
    rw [lookupLast_remove, if_neg (by decide)]

/-! ## C10 -/

/-- A valid `icon` prop on `Select` makes the icon child `Select` hands to
`SelectIcon` valid. -/
theorem iconChildOk_selectIconInput (sc : Obj → Obj) (props : Obj)
    (h : iconPropOk props = true) :
    iconChildOk (selectIconInput sc props) = true := by
  unfold iconPropOk at h
  unfold iconChildOk
  rw [show lookupLast (selectIconInput sc props) "children"
      = some ((lookupLast (omitThemingProps props) "icon").getD Val.undef) from rfl]
  cases hicon : lookupLast (omitThemingProps props) "icon" with
  | none => rfl
  | some v =>
      rw [hicon] at h
      cases v with
      | elem e =>
          cases e with
          | mk t ps cs => rfl
          | text s => simp at h
      | undef => rfl
      | str s => simp at h
      | bool b => simp at h
      | num n => simp at h
      | obj o => simp at h
      | elems l => simp at h

/-- C10: for every input with a valid icon prop (an element or none),
`Select` renders the icon wrapper — class `chakra-select__icon-wrapper`,
exactly one icon child — regardless of icon, placeholder or children, and
its `data-disabled` attribute is exactly the `isDisabled` prop value. -/
theorem select_icon_wrapper_invariant (sc fc : Obj → Obj) (props : Obj)
    (h : iconPropOk props = true) :
    (renderSelectIcon (selectIconInput sc props)).isSome = true ∧
    ∀ w, renderSelectIcon (selectIconInput sc props) = some w →
      renderSelect sc fc props =
        some (Elem.mk "div" (selectWrapperProps props)
          [renderSelectField fc (selectFieldInput sc props), w]) ∧
      lookupLast w.props "className" =
        some (Val.str "chakra-select__icon-wrapper") ∧
      w.children.length = 1 ∧
      lookupLast w.props "data-disabled" =
        some ((lookupLast props "isDisabled").getD Val.undef) := by
  obtain ⟨t, ps, cs, hri⟩ :=
    renderSelectIcon_valid (selectIconInput sc props)
      (iconChildOk_selectIconInput sc props h)
  constructor
  · rw [hri]
    rfl
  · intro w hw
    rw [hri] at hw
    obtain rfl := Option.some.inj hw
    refine ⟨?_, ?_, rfl, ?_⟩
    · simp only [renderSelect, hri]
    · simp only [Elem.props]
      rw [lookupLast_append]
      rfl
    · simp only [Elem.props]
      rw [lookupLast_append, lookupLast_append, lookupLast_remove,
        if_neg (by decide)]
      rfl

/-- Witness for C10: the demo props (with `isDisabled = true` and no icon)
yield an icon wrapper whose `data-disabled` is `true`. -/
theorem select_icon_wrapper_invariant_witness :
    lookupLast ((renderSelectIcon (selectIconInput demoSc demoProps)).getD
      (Elem.text "")).props "data-disabled" = some (Val.bool true) := by
  have h := (select_icon_wrapper_invariant demoSc demoFc demoProps rfl).2 _ rfl
  exact h.2.2.2.trans rfl

end Chakra
